import Mathlib

/-!
Verification development for the phishing-detector repository.

The Lean definitions below are shallow embeddings of the Python functions in
`src/`: numeric values are modelled by `ℚ` (Python floats here only ever hold
decimal constants and exact arithmetic on them), dictionaries of features by
structures, and code whose result depends on the network or on a persisted
model artifact takes that outcome as an explicit argument.
-/

/-- Embedding of the feature dictionary produced by
`EnhancedURLFeatureExtractor.extract_url_structure_features`
(src/src/features/enhanced_url_features.py).  Flag features are 0/1 integers
exactly as in the Python dict; `domain_age_days` is an integer where `-1`
encodes an unknown age. Only the fields consumed by
`calculate_url_confidence` and by the display summary are carried. -/
structure URLFeatures where
  url_length : ℕ
  subdomain_count : ℕ
  special_chars_count : ℕ
  url_encoded_chars : ℕ
  digits_in_domain : ℕ
  has_ip_address : ℕ
  has_at_symbol : ℕ
  has_double_slash_redirect : ℕ
  has_common_typos : ℕ
  has_security_keywords : ℕ
  has_login_keywords : ℕ
  domain_age_days : ℤ
deriving DecidableEq, Repr

/-- Embedding of the `except` branch of `extract_url_structure_features`
(lines 90-99): when URL parsing raises, every feature - including
`domain_age_days` - is set to `0`. -/
def default_url_features : URLFeatures :=
  { url_length := 0, subdomain_count := 0, special_chars_count := 0,
    url_encoded_chars := 0, digits_in_domain := 0, has_ip_address := 0,
    has_at_symbol := 0, has_double_slash_redirect := 0, has_common_typos := 0,
    has_security_keywords := 0, has_login_keywords := 0, domain_age_days := 0 }

/-- Embedding of the domain-age contribution inside `calculate_url_confidence`
(lines 329-334): only a strictly positive age contributes, capped at 730 days,
with weight `-0.0005 = -1/2000` per day. -/
def age_risk (age : ℤ) : ℚ :=
  if 0 < age then ((min age 730 : ℤ) : ℚ) * (-1 / 2000) else 0

/-- Embedding of the age-independent part of the weighted risk sum in
`calculate_url_confidence` (lines 289-327), with the documented weights
0.7, 0.6, 0.5, 0.8, 0.01, 0.03, 0.15, 0.1, 0.1, 0.001, 0.05 as exact
rationals. -/
def base_url_risk (f : URLFeatures) : ℚ :=
  (if f.has_ip_address ≠ 0 then (7 : ℚ) / 10 else 0)
  + (if f.has_at_symbol ≠ 0 then (6 : ℚ) / 10 else 0)
  + (if f.has_double_slash_redirect ≠ 0 then (5 : ℚ) / 10 else 0)
  + (if f.has_common_typos ≠ 0 then (8 : ℚ) / 10 else 0)
  + (f.special_chars_count : ℚ) * (1 / 100)
  + (f.url_encoded_chars : ℚ) * (3 / 100)
  + (f.has_security_keywords : ℚ) * (15 / 100)
  + (f.has_login_keywords : ℚ) * (1 / 10)
  + (if 1 < f.subdomain_count then ((f.subdomain_count : ℚ) - 1) * (1 / 10) else 0)
  + (if 50 < f.url_length then ((f.url_length : ℚ) - 50) * (1 / 1000) else 0)
  + (f.digits_in_domain : ℚ) * (5 / 100)

/-- Embedding of `calculate_url_confidence`
(src/src/features/enhanced_url_features.py, lines 259-340): the weighted risk
sum, clamped to the interval [0, 0.95]. -/
def calculate_url_confidence (f : URLFeatures) : ℚ :=
  min ((95 : ℚ) / 100) (max 0 (base_url_risk f + age_risk f.domain_age_days))

theorem age_risk_antitone {a b : ℤ} (hab : a ≤ b) : age_risk b ≤ age_risk a := by
  unfold age_risk
  split_ifs with hb ha ha
  · have hmin : (min a 730 : ℤ) ≤ min b 730 := min_le_min hab le_rfl
    have hcast : ((min a 730 : ℤ) : ℚ) ≤ ((min b 730 : ℤ) : ℚ) := by exact_mod_cast hmin
    have hneg : (-1 / 2000 : ℚ) ≤ 0 := by norm_num
    exact mul_le_mul_of_nonpos_right hcast hneg
  · have hpos : (0 : ℤ) ≤ min b 730 := le_min (le_of_lt hb) (by norm_num)
    have hcast : (0 : ℚ) ≤ ((min b 730 : ℤ) : ℚ) := by exact_mod_cast hpos
    exact mul_nonpos_of_nonneg_of_nonpos hcast (by norm_num)
  · exact absurd (lt_of_lt_of_le ha hab) hb
  · exact le_rfl

theorem url_confidence_nonneg (f : URLFeatures) : 0 ≤ calculate_url_confidence f :=
  le_min (by norm_num) (le_max_left 0 _)

theorem url_confidence_le_one (f : URLFeatures) : calculate_url_confidence f ≤ 1 :=
  le_trans (min_le_left _ _) (by norm_num)

theorem url_confidence_eq (f : URLFeatures) (q : ℚ)
    (h : base_url_risk f + age_risk f.domain_age_days = q)
    (h0 : 0 ≤ q) (h1 : q ≤ 95 / 100) : calculate_url_confidence f = q := by
  unfold calculate_url_confidence
  rw [h, max_eq_right h0, min_eq_right h1]

/-- Claim C5 (counterexample): on the default all-zero feature vector that the
extractor returns for a malformed URL, the lexical confidence is not the
mid-range value 0.5 claimed by the spec. -/
theorem url_confidence_default_ne_half :
    calculate_url_confidence default_url_features ≠ 1 / 2 := by
  rw [url_confidence_eq default_url_features 0 (by norm_num [base_url_risk, age_risk, default_url_features]) le_rfl (by norm_num)]
  norm_num

/-- Claim C5 (amended): the lexical confidence of the default all-zero feature
vector produced for a malformed URL is exactly 0 (not 0.5), and for every
feature vector the confidence lies in [0, 1] (in fact in [0, 0.95]). -/
theorem url_confidence_default_and_range :
    calculate_url_confidence default_url_features = 0
    ∧ ∀ f : URLFeatures,
        0 ≤ calculate_url_confidence f ∧ calculate_url_confidence f ≤ 1 :=
  ⟨url_confidence_eq _ 0 (by norm_num [base_url_risk, age_risk, default_url_features]) le_rfl (by norm_num),
   fun f => ⟨url_confidence_nonneg f, url_confidence_le_one f⟩⟩

/-- Claim C8: the lexical confidence is monotonically non-decreasing in domain
youth: holding every other feature fixed, a smaller (younger)
`domain_age_days` yields a confidence greater than or equal to that of a
larger (older) one. -/
theorem url_confidence_age_antitone (f : URLFeatures) (a b : ℤ) (hab : a ≤ b) :
    calculate_url_confidence { f with domain_age_days := b }
      ≤ calculate_url_confidence { f with domain_age_days := a } := by
  unfold calculate_url_confidence
  have hbase : base_url_risk { f with domain_age_days := b }
      = base_url_risk { f with domain_age_days := a } := rfl
  rw [hbase]
  exact min_le_min le_rfl (max_le_max le_rfl
    (add_le_add_left (age_risk_antitone hab) _))

/-- Claim C8 (witness): instantiation at a concrete feature vector, comparing
a 100-day-old domain with a 400-day-old one. -/
theorem url_confidence_age_antitone_witness :
    calculate_url_confidence { default_url_features with domain_age_days := 400 }
      ≤ calculate_url_confidence { default_url_features with domain_age_days := 100 } :=
  url_confidence_age_antitone default_url_features 100 400 (by decide)

/-- Embedding of the Python `max` builtin over a list of probabilities: for the
non-empty lists produced by `predict_proba` this is the maximum element
(`max(probabilities)` in the source); on `[]` it returns 0, matching the
`max(...) if ... else 0` guards at the API call sites. -/
def pymax (l : List ℚ) : ℚ := l.foldl max (l.headD 0)

/-- Embedding of the summary dictionary returned by `extract_url_features`
(src/src/predict.py, lines 126-146): selected lexical flags plus the
standalone confidence score computed by `calculate_url_confidence`. -/
structure URLFeatureSummary where
  has_ip_address : ℕ
  has_at_symbol : ℕ
  has_common_typos : ℕ
  has_security_keywords : ℕ
  has_login_keywords : ℕ
  domain_age_days : ℤ
  url_confidence_score : ℚ
deriving DecidableEq, Repr

/-- Embedding of `extract_url_features` (src/src/predict.py, lines 126-146). -/
def extract_url_features (f : URLFeatures) : URLFeatureSummary :=
  { has_ip_address := f.has_ip_address, has_at_symbol := f.has_at_symbol,
    has_common_typos := f.has_common_typos,
    has_security_keywords := f.has_security_keywords,
    has_login_keywords := f.has_login_keywords,
    domain_age_days := f.domain_age_days,
    url_confidence_score := calculate_url_confidence f }

/-- Embedding of `determine_threat_level` (src/src/predict.py, lines 238-270):
the elif cascade over the predicted label, the maximum class probability and
the lexical confidence score. -/
def determine_threat_level (label : ℕ) (probabilities : List ℚ)
    (uf : URLFeatureSummary) : String :=
  if label = 2 then "high"
  else if label = 1 ∧ pymax probabilities > 7 / 10 then "high"
  else if label = 1 then "medium"
  else if uf.url_confidence_score > 6 / 10 then "medium"
  else if label = 0 ∧ pymax probabilities > 9 / 10 then "safe"
  else "low"

/-- Embedding of `determine_threat_level_from_url` (src/src/predict.py,
lines 272-293): thresholds on the lexical confidence score alone. -/
def determine_threat_level_from_url (uf : URLFeatureSummary) : String :=
  if uf.url_confidence_score > 7 / 10 then "high"
  else if uf.url_confidence_score > 4 / 10 then "medium"
  else "low"

/-- Embedding of `calculate_final_confidence` (src/src/predict.py,
lines 295-320).  The `url_features` dict passed at both call sites always
carries `url_confidence_score`, so the Python `.get(..., 0.5)` default never
fires and is elided. -/
def calculate_final_confidence (probabilities : List ℚ)
    (uf : URLFeatureSummary) : ℚ :=
  pymax probabilities * (7 / 10) + uf.url_confidence_score * (3 / 10)

/-- Embedding of the `class_mapping` dict lookup with its format-string
default (src/src/predict.py, lines 100-104 and 113). -/
def class_mapping (label : ℕ) : String :=
  if label = 0 then "Legitimate"
  else if label = 1 then "Credential Phishing"
  else if label = 2 then "Malware Distribution"
  else "Unknown (" ++ toString label ++ ")"

/-- Outcome of one attempt of `ContentFetcher.fetch_content`
(src/src/features/content_features.py, lines 46-82): either an HTTP response
with a status code and a body text, or a raised transport exception recorded
as an error string (timeout, connection error, or other). -/
inductive AttemptOutcome where
  | response (status : ℕ) (body : String)
  | failure (errorMsg : String)
deriving DecidableEq, Repr

/-- Embedding of the retry loop of `fetch_content`: the `html` field of the
returned result.  It is set (and the loop left) by the first attempt whose
status code is 200; any other outcome leaves `html` as `None` and retries.
The input list is the sequence of attempt outcomes the network would yield,
its length bounded by `max_retries + 1`. -/
def fetch_html : List AttemptOutcome → Option String
  | [] => none
  | AttemptOutcome.response s body :: rest =>
      if s = 200 then some body else fetch_html rest
  | AttemptOutcome.failure _ :: rest => fetch_html rest

/-- Embedding of the `fetch_success` column of `extract_content_features`
(src/src/features/content_features.py, line 146): Python truthiness of the
`html` field, so `None` and the empty string both yield 0. -/
def fetch_success (attempts : List AttemptOutcome) : ℕ :=
  match fetch_html attempts with
  | some body => if body = "" then 0 else 1
  | none => 0

/-- The attempts the retry loop actually executes: every attempt up to and
including the first one that returns status 200 (the loop breaks there). -/
def executed_attempts : List AttemptOutcome → List AttemptOutcome
  | [] => []
  | AttemptOutcome.response s body :: rest =>
      if s = 200 then [AttemptOutcome.response s body]
      else AttemptOutcome.response s body :: executed_attempts rest
  | AttemptOutcome.failure m :: rest =>
      AttemptOutcome.failure m :: executed_attempts rest

/-- Embedding of the result dict of `classify_url` (src/src/predict.py,
lines 76-124): `none` marks a key that the corresponding branch does not
populate (`class`/`probabilities` are `None` on fetch failure;
`final_confidence` and the top-level `url_confidence_score` each appear in
only one branch). -/
structure Verdict where
  error : Option String
  className : Option String
  probabilities : Option (List ℚ)
  threat_level : String
  final_confidence : Option ℚ
  url_confidence_score : Option ℚ
deriving DecidableEq, Repr

/-- Embedding of `classify_url` (src/src/predict.py, lines 43-124).  The
lexical features `f` stand for the parse of the URL string; `attempts` is the
sequence of network outcomes seen by the content fetcher; `modelOut` is the
(label, probabilities) pair the loaded ensemble model and fitted pipeline
would produce on the fetched content - it is consulted only when the fetch
succeeded, exactly as in the source. -/
def classify_url (f : URLFeatures) (attempts : List AttemptOutcome)
    (modelOut : ℕ × List ℚ) : Verdict :=
  let uf := extract_url_features f
  if fetch_success attempts = 0 then
    { error := some "Failed to fetch content", className := none,
      probabilities := none,
      threat_level := determine_threat_level_from_url uf,
      final_confidence := none,
      url_confidence_score := some uf.url_confidence_score }
  else
    { error := none, className := some (class_mapping modelOut.1),
      probabilities := some modelOut.2,
      threat_level := determine_threat_level modelOut.1 modelOut.2 uf,
      final_confidence := some (calculate_final_confidence modelOut.2 uf),
      url_confidence_score := none }

/-- Claim C10: `fetch_success` is 1 exactly when some executed fetch attempt
returned HTTP 200 with a non-empty body; in particular a 200 response with an
empty body is scored through the same lexical-only degraded path as a
transport failure. -/
theorem fetch_success_iff_200_nonempty (attempts : List AttemptOutcome) :
    (fetch_success attempts = 1
      ↔ ∃ a ∈ executed_attempts attempts, ∃ body : String,
          a = AttemptOutcome.response 200 body ∧ body ≠ "")
    ∧ ∀ (f : URLFeatures) (m : ℕ × List ℚ),
        classify_url f [AttemptOutcome.response 200 ""] m
          = classify_url f [AttemptOutcome.failure "Connection Error"] m := by
  constructor
  · induction attempts with
    | nil => simp [fetch_success, fetch_html, executed_attempts]
    | cons a rest ih =>
      cases a with
      | response s body =>
        by_cases hs : s = 200
        · subst hs
          by_cases hb : body = ""
          · subst hb
            simp [fetch_success, fetch_html, executed_attempts]
          · simp [fetch_success, fetch_html, executed_attempts, hb]
        · simpa [fetch_success, fetch_html, executed_attempts, hs] using ih
      | failure m =>
        simpa [fetch_success, fetch_html, executed_attempts] using ih
  · intro f m
    rfl

theorem extract_url_features_score (f : URLFeatures) :
    (extract_url_features f).url_confidence_score = calculate_url_confidence f :=
  rfl

theorem classify_url_fail_eq (f : URLFeatures) (attempts : List AttemptOutcome)
    (m : ℕ × List ℚ) (h0 : fetch_success attempts = 0) :
    classify_url f attempts m
      = { error := some "Failed to fetch content", className := none,
          probabilities := none,
          threat_level := determine_threat_level_from_url (extract_url_features f),
          final_confidence := none,
          url_confidence_score := some (calculate_url_confidence f) } := by
  simp only [classify_url]
  rw [if_pos h0, extract_url_features_score]

/-- Claim C4: when the content fetch fails, the verdict of `classify_url` has
no class and no class probabilities, carries the explicit fetch-failure error
string, is independent of the output of the ensemble classifier, and its threat
level is a function of the lexical confidence alone with the fixed thresholds
(> 0.7 high, > 0.4 medium, else low). -/
theorem classify_url_fetch_failure (f : URLFeatures)
    (attempts : List AttemptOutcome) (m : ℕ × List ℚ)
    (h0 : fetch_success attempts = 0) :
    (classify_url f attempts m).probabilities = none
    ∧ (classify_url f attempts m).className = none
    ∧ (classify_url f attempts m).error = some "Failed to fetch content"
    ∧ (∀ m' : ℕ × List ℚ, classify_url f attempts m = classify_url f attempts m')
    ∧ (calculate_url_confidence f > 7 / 10 →
        (classify_url f attempts m).threat_level = "high")
    ∧ (calculate_url_confidence f ≤ 7 / 10 → calculate_url_confidence f > 4 / 10 →
        (classify_url f attempts m).threat_level = "medium")
    ∧ (calculate_url_confidence f ≤ 4 / 10 →
        (classify_url f attempts m).threat_level = "low") := by
  rw [classify_url_fail_eq f attempts m h0]
  refine ⟨rfl, rfl, rfl,
    fun m' => by rw [classify_url_fail_eq f attempts m' h0], ?_, ?_, ?_⟩
  · intro h
    show determine_threat_level_from_url (extract_url_features f) = "high"
    unfold determine_threat_level_from_url
    rw [extract_url_features_score, if_pos h]
  · intro h1 h2
    show determine_threat_level_from_url (extract_url_features f) = "medium"
    unfold determine_threat_level_from_url
    rw [extract_url_features_score, if_neg (by linarith), if_pos h2]
  · intro h1
    show determine_threat_level_from_url (extract_url_features f) = "low"
    unfold determine_threat_level_from_url
    rw [extract_url_features_score, if_neg (by linarith), if_neg (by linarith)]

/-- Claim C4 (witness): a feature vector with a literal IP host and one digit
in the domain has lexical confidence exactly 0.75, and a fetch failure then
yields threat level "high". -/
theorem classify_url_fetch_failure_witness :
    (classify_url
        { default_url_features with has_ip_address := 1, digits_in_domain := 1 }
        [AttemptOutcome.failure "Timeout Error"] (0, [])).threat_level = "high" := by
  have hc : calculate_url_confidence
      { default_url_features with has_ip_address := 1, digits_in_domain := 1 }
        = 3 / 4 :=
    url_confidence_eq _ (3 / 4)
      (by norm_num [base_url_risk, age_risk, default_url_features])
      (by norm_num) (by norm_num)
  exact (classify_url_fetch_failure
      { default_url_features with has_ip_address := 1, digits_in_domain := 1 }
      [AttemptOutcome.failure "Timeout Error"] (0, []) rfl).2.2.2.2.1
    (by rw [hc]; norm_num)

/-- Claim C6: whenever both the classifier distribution and the lexical
confidence are present (fetch succeeded), the final confidence is
0.7 x (maximum class probability) + 0.3 x (lexical confidence); when only the
lexical signal is present (fetch failed) the verdict carries that signal
unscaled as its confidence score and no combined final confidence. -/
theorem final_confidence_weights (f : URLFeatures)
    (attempts : List AttemptOutcome) (m : ℕ × List ℚ) :
    (fetch_success attempts ≠ 0 →
      (classify_url f attempts m).final_confidence
        = some (7 / 10 * pymax m.2 + 3 / 10 * calculate_url_confidence f))
    ∧ (fetch_success attempts = 0 →
      (classify_url f attempts m).final_confidence = none
      ∧ (classify_url f attempts m).probabilities = none
      ∧ (classify_url f attempts m).url_confidence_score
          = some (calculate_url_confidence f)) := by
  constructor
  · intro h
    have hv : (classify_url f attempts m).final_confidence
        = some (calculate_final_confidence m.2 (extract_url_features f)) := by
      simp only [classify_url]
      rw [if_neg h]
    rw [hv]
    unfold calculate_final_confidence
    rw [extract_url_features_score]
    exact congrArg some (by ring)
  · intro h
    rw [classify_url_fail_eq f attempts m h]
    exact ⟨rfl, rfl, rfl⟩

/-- Claim C6 (witness): instantiation on a successful fetch with a concrete
probability vector, and on a failed fetch. -/
theorem final_confidence_weights_witness :
    (classify_url default_url_features [AttemptOutcome.response 200 "x"]
        (0, [1 / 2])).final_confidence
      = some (7 / 10 * pymax [(1 : ℚ) / 2]
          + 3 / 10 * calculate_url_confidence default_url_features)
    ∧ (classify_url default_url_features [AttemptOutcome.failure "Timeout Error"]
        (0, [1 / 2])).url_confidence_score
      = some (calculate_url_confidence default_url_features) :=
  ⟨(final_confidence_weights default_url_features
      [AttemptOutcome.response 200 "x"] (0, [1 / 2])).1 (by decide),
   ((final_confidence_weights default_url_features
      [AttemptOutcome.failure "Timeout Error"] (0, [1 / 2])).2 rfl).2.2⟩

/-- Embedding of the result dict of `get_ml_prediction`
(src/src/api/predict.py, lines 76-173): class name, probability values, and
the warning attached on the two degraded branches. -/
structure MLPrediction where
  class_name : String
  probs : List ℚ
  warning : Option String
deriving DecidableEq, Repr

/-- The three branch-selecting situations of `get_ml_prediction`: no loaded
model artifact, a failed content fetch, or a model prediction
(label, probabilities) on the fetched content. -/
inductive MLOutcome where
  | noModel
  | fetchFailed
  | ok (label : ℕ) (probs : List ℚ)
deriving DecidableEq, Repr

/-- Embedding of the class-name mapping of `get_ml_prediction`
(lines 139-155): keyed on the number of classes, with the `.get` fallback. -/
def api_class_mapping (n i : ℕ) : String :=
  if n = 2 then
    (if i = 0 then "Legitimate" else if i = 1 then "Malicious" else "unknown")
  else if n = 3 then
    (if i = 0 then "Legitimate" else if i = 1 then "Credential Phishing"
     else if i = 2 then "Malware Distribution" else "unknown")
  else (if i < n then "class_" ++ toString i else "unknown")

/-- Embedding of `get_ml_prediction` (src/src/api/predict.py, lines 76-173):
with no model it returns a default "Legitimate" prediction with probabilities
0.8/0.2; on fetch failure an "Unknown" prediction with probabilities 0.5/0.5;
otherwise the output of the model under the class-name mapping. -/
def get_ml_prediction : MLOutcome → MLPrediction
  | MLOutcome.noModel =>
      { class_name := "Legitimate", probs := [8 / 10, 2 / 10],
        warning := some "Using default prediction - ML model not available" }
  | MLOutcome.fetchFailed =>
      { class_name := "Unknown", probs := [1 / 2, 1 / 2],
        warning := some "Content fetch failed - limited prediction available" }
  | MLOutcome.ok label probs =>
      { class_name := api_class_mapping probs.length label, probs := probs,
        warning := none }

/-- Embedding of the per-provider threat level computed in
`VirusTotalAPI._parse_url_response` (src/src/api/threat_intelligence.py,
lines 96-107): initialised to "unknown", refined by the detection-count
thresholds only when at least one detection was tallied. -/
def vt_threat_level (malCount susCount harmCount undCount : ℕ) : String :=
  if 0 < malCount + susCount + harmCount + undCount then
    if ((malCount + susCount : ℕ) : ℚ)
        / ((malCount + susCount + harmCount + undCount : ℕ) : ℚ) > 3 / 10 then
      "high"
    else if ((malCount + susCount : ℕ) : ℚ)
        / ((malCount + susCount + harmCount + undCount : ℕ) : ℚ) > 1 / 10 then
      "medium"
    else if malCount = 0 ∧ susCount = 0 then "low"
    else "suspicious"
  else "unknown"

/-- Embedding of the report dict built by `_parse_url_response`
(src/src/api/threat_intelligence.py, lines 85-121).  The detection-ratio
field of the source dict is `risk_frac` here. -/
structure VTReport where
  status : String
  malicious : ℕ
  suspicious : ℕ
  harmless : ℕ
  undetected : ℕ
  total : ℕ
  threat_level : String
  risk_frac : ℚ
deriving DecidableEq, Repr

/-- Embedding of `_parse_url_response` applied to the four analysis-stat
counts read from the provider response. -/
def parse_url_response (malCount susCount harmCount undCount : ℕ) : VTReport :=
  { status := "success", malicious := malCount, suspicious := susCount,
    harmless := harmCount, undetected := undCount,
    total := malCount + susCount + harmCount + undCount,
    threat_level := vt_threat_level malCount susCount harmCount undCount,
    risk_frac :=
      if 0 < malCount + susCount + harmCount + undCount then
        ((malCount + susCount : ℕ) : ℚ)
          / ((malCount + susCount + harmCount + undCount : ℕ) : ℚ)
      else 0 }

/-- The ordinal scale of `calculate_combined_threat_level`
(src/src/api/predict.py, line 218). -/
def threat_levels : List String := ["unknown", "low", "suspicious", "medium", "high"]

/-- Embedding of `threat_levels.index(x) if x in threat_levels else 0`
(src/src/api/predict.py, lines 219-220). -/
def levelIndex (s : String) : ℕ :=
  if s ∈ threat_levels then threat_levels.indexOf s else 0

/-- Embedding of the Python `str.lower()` call on the ASCII class-name
strings: character-wise lowercasing over the character list of the string. -/
def lowerString (s : String) : String := String.mk (s.data.map Char.toLower)

/-- Embedding of the ML threat level computed inside
`calculate_combined_threat_level` (src/src/api/predict.py, lines 199-209):
the lowercased class name is compared against the words phishing and malware
and the maximum probability against the 0.7/0.5 thresholds. -/
def ml_threat_of (p : MLPrediction) : String :=
  if (lowerString p.class_name = "phishing" ∨ lowerString p.class_name = "malware")
      ∧ (if p.probs = [] then (0 : ℚ) else pymax p.probs) > 7 / 10 then "high"
  else if (lowerString p.class_name = "phishing" ∨ lowerString p.class_name = "malware")
      ∧ (if p.probs = [] then (0 : ℚ) else pymax p.probs) > 1 / 2 then "medium"
  else if lowerString p.class_name = "unknown" then "unknown"
  else "low"

/-- Embedding of the VirusTotal threat level read inside
`calculate_combined_threat_level` (lines 212-215): "unknown" unless a
successful url_analysis is present. -/
def vt_threat_of (vt : Option VTReport) : String :=
  match vt with
  | some r => if r.status = "success" then r.threat_level else "unknown"
  | none => "unknown"

/-- Embedding of `calculate_combined_threat_level`
(src/src/api/predict.py, lines 196-223): the ordinal maximum of the ML and
reputation levels. -/
def calculate_combined_threat_level (ml : MLPrediction) (vt : Option VTReport) : String :=
  threat_levels.getD
    (max (levelIndex (ml_threat_of ml)) (levelIndex (vt_threat_of vt))) "unknown"

/-- Embedding of the VirusTotal confidence adjustment in `predict`
(src/src/api/predict.py, lines 241-256). -/
def vt_confidence (vt : Option VTReport) : ℚ :=
  match vt with
  | some r =>
      if r.status = "success" then
        if 0 < r.total then
          if ((r.malicious + r.suspicious : ℕ) : ℚ) / (r.total : ℚ) > 3 / 10 then 9 / 10
          else if ((r.malicious + r.suspicious : ℕ) : ℚ) / (r.total : ℚ) > 1 / 10 then 7 / 10
          else if (r.harmless : ℚ) / (r.total : ℚ) > 8 / 10 then 1 / 10
          else 1 / 2
        else 1 / 2
      else 1 / 2
  | none => 1 / 2

/-- Embedding of the final-confidence combination in `predict`
(src/src/api/predict.py, lines 238-259): ML weight 0.6, VirusTotal
weight 0.4. -/
def api_final_confidence (ml : MLPrediction) (vt : Option VTReport) : ℚ :=
  (if ml.probs = [] then (0 : ℚ) else pymax ml.probs) * (6 / 10)
    + vt_confidence vt * (4 / 10)

/-- The fields of the dict returned by the API `predict` (and its legacy
wrapper `classify_url`, src/src/api/predict.py, lines 225-286) that the
claims are about. -/
structure APIVerdict where
  class_name : String
  probabilities : List ℚ
  threat_level : String
  final_confidence : ℚ
deriving DecidableEq, Repr

/-- Embedding of the API `predict`/`classify_url` path
(src/src/api/predict.py, lines 225-286), as a function of the ML branch
outcome and the optional successful VirusTotal url analysis. -/
def api_classify_url (mlo : MLOutcome) (vt : Option VTReport) : APIVerdict :=
  { class_name := (get_ml_prediction mlo).class_name,
    probabilities := (get_ml_prediction mlo).probs,
    threat_level := calculate_combined_threat_level (get_ml_prediction mlo) vt,
    final_confidence := api_final_confidence (get_ml_prediction mlo) vt }

theorem threat_levels_length : threat_levels.length = 5 := rfl

theorem levelIndex_lt_five (s : String) : levelIndex s < 5 := by
  unfold levelIndex
  split_ifs with h
  · simpa [threat_levels_length] using List.indexOf_lt_length.mpr h
  · norm_num

theorem levelIndex_getD (i : ℕ) (h : i < 5) :
    levelIndex (threat_levels.getD i "unknown") = i := by
  interval_cases i <;> decide

theorem threat_levels_getD_mem (i : ℕ) (h : i < 5) :
    threat_levels.getD i "unknown" ∈ threat_levels := by
  interval_cases i <;> decide

/-- Claim C7: the fused threat level is the ordinal maximum of the ML-derived
level and the reputation-derived level on the scale
unknown < low < suspicious < medium < high, so it is never below the level
the classifier signal established - reputation can only raise it. -/
theorem combined_threat_is_max (ml : MLPrediction) (vt : Option VTReport) :
    levelIndex (calculate_combined_threat_level ml vt)
      = max (levelIndex (ml_threat_of ml)) (levelIndex (vt_threat_of vt))
    ∧ levelIndex (ml_threat_of ml)
        ≤ levelIndex (calculate_combined_threat_level ml vt) := by
  have h5 : max (levelIndex (ml_threat_of ml)) (levelIndex (vt_threat_of vt)) < 5 :=
    max_lt (levelIndex_lt_five _) (levelIndex_lt_five _)
  have h1 : levelIndex (calculate_combined_threat_level ml vt)
      = max (levelIndex (ml_threat_of ml)) (levelIndex (vt_threat_of vt)) := by
    unfold calculate_combined_threat_level
    exact levelIndex_getD _ h5
  exact ⟨h1, by rw [h1]; exact le_max_left _ _⟩

/-- Claim C3 (counterexample): when no trained model artifact is available,
`get_ml_prediction` reports the class as "Legitimate", contradicting the
claimed explicit model-unavailable condition. -/
theorem no_model_reports_legitimate :
    (get_ml_prediction MLOutcome.noModel).class_name = "Legitimate" := rfl

/-- Claim C3 (amended): with no model available, `get_ml_prediction` does not
raise but returns a default prediction - class "Legitimate" with
probabilities 0.8/0.2 and a warning string - and the fusion step treats it as
a low-threat ML signal (level "low"), not as absence of the signal. -/
theorem no_model_default_prediction :
    get_ml_prediction MLOutcome.noModel
      = { class_name := "Legitimate", probs := [8 / 10, 2 / 10],
          warning := some "Using default prediction - ML model not available" }
    ∧ ml_threat_of (get_ml_prediction MLOutcome.noModel) = "low"
    ∧ (api_classify_url MLOutcome.noModel none).threat_level = "low" := by
  refine ⟨rfl, ?_, ?_⟩ <;> decide

/-- Claim C2 (code divergence): the core `determine_threat_level` gives
"high" for every Malware Distribution prediction, but the combined API
`calculate_combined_threat_level` yields only "low" for a Malware
Distribution prediction of probability 0.95 with no reputation data, because
its class-name comparison against the words phishing and malware never
matches the produced class names. -/
theorem malware_distribution_threat_divergence :
    (∀ (probs : List ℚ) (uf : URLFeatureSummary),
        determine_threat_level 2 probs uf = "high")
    ∧ (api_classify_url (MLOutcome.ok 2 [1 / 100, 4 / 100, 95 / 100])
        none).threat_level = "low" := by
  refine ⟨fun probs uf => rfl, ?_⟩
  decide

theorem foldl_max_bounds (l : List ℚ) (init : ℚ) (h0 : 0 ≤ init) (h1 : init ≤ 1)
    (hp : ∀ p ∈ l, 0 ≤ p ∧ p ≤ 1) :
    0 ≤ l.foldl max init ∧ l.foldl max init ≤ 1 := by
  induction l generalizing init with
  | nil => exact ⟨h0, h1⟩
  | cons a t ih =>
    have ha := hp a (List.mem_cons_self a t)
    simp only [List.foldl_cons]
    exact ih (max init a) (le_max_of_le_left h0) (max_le h1 ha.2)
      (fun p hmem => hp p (List.mem_cons_of_mem a hmem))

theorem pymax_bounds (l : List ℚ) (hp : ∀ p ∈ l, 0 ≤ p ∧ p ≤ 1) :
    0 ≤ pymax l ∧ pymax l ≤ 1 := by
  cases l with
  | nil => constructor <;> norm_num [pymax]
  | cons a t =>
    have ha := hp a (List.mem_cons_self a t)
    have hh : (a :: t).headD 0 = a := rfl
    unfold pymax
    rw [hh]
    exact foldl_max_bounds (a :: t) a ha.1 ha.2 hp

theorem determine_threat_level_mem (label : ℕ) (probs : List ℚ)
    (uf : URLFeatureSummary) :
    determine_threat_level label probs uf
      ∈ (["safe", "low", "medium", "high"] : List String) := by
  unfold determine_threat_level
  split_ifs <;> decide

theorem determine_threat_level_from_url_mem (uf : URLFeatureSummary) :
    determine_threat_level_from_url uf
      ∈ (["safe", "low", "medium", "high"] : List String) := by
  unfold determine_threat_level_from_url
  split_ifs <;> decide

theorem classify_url_success_eq (f : URLFeatures) (attempts : List AttemptOutcome)
    (m : ℕ × List ℚ) (h : ¬ fetch_success attempts = 0) :
    classify_url f attempts m
      = { error := none, className := some (class_mapping m.1),
          probabilities := some m.2,
          threat_level := determine_threat_level m.1 m.2 (extract_url_features f),
          final_confidence :=
            some (calculate_final_confidence m.2 (extract_url_features f)),
          url_confidence_score := none } := by
  simp only [classify_url]
  rw [if_neg h]

/-- Claim C1 (counterexample): on the API serving path with a loaded model, a
failed content fetch and no reputation data yield the threat level "unknown",
which is outside the claimed {safe, low, medium, high} enumeration. -/
theorem api_threat_level_not_in_enum :
    (api_classify_url MLOutcome.fetchFailed none).threat_level = "unknown"
    ∧ "unknown" ∉ (["safe", "low", "medium", "high"] : List String) := by
  constructor <;> decide

/-- Claim C1 (amended): the core `classify_url` always returns a threat level
in {safe, low, medium, high} and, whenever a final confidence is present, it
lies in [0, 1]; the combined threat level of the API path ranges over the larger
enumeration {unknown, low, suspicious, medium, high}. -/
theorem classify_url_verdict_range (f : URLFeatures)
    (attempts : List AttemptOutcome) (label : ℕ) (probs : List ℚ)
    (hp : ∀ p ∈ probs, 0 ≤ p ∧ p ≤ 1) :
    (classify_url f attempts (label, probs)).threat_level
        ∈ (["safe", "low", "medium", "high"] : List String)
    ∧ (∀ c : ℚ,
        (classify_url f attempts (label, probs)).final_confidence = some c →
        0 ≤ c ∧ c ≤ 1)
    ∧ ∀ (ml : MLPrediction) (vt : Option VTReport),
        calculate_combined_threat_level ml vt ∈ threat_levels := by
  refine ⟨?_, ?_, ?_⟩
  · by_cases h : fetch_success attempts = 0
    · rw [classify_url_fail_eq f attempts (label, probs) h]
      exact determine_threat_level_from_url_mem _
    · rw [classify_url_success_eq f attempts (label, probs) h]
      exact determine_threat_level_mem _ _ _
  · intro c hc
    by_cases h : fetch_success attempts = 0
    · rw [classify_url_fail_eq f attempts (label, probs) h] at hc
      simp at hc
    · rw [classify_url_success_eq f attempts (label, probs) h] at hc
      have hceq : calculate_final_confidence probs (extract_url_features f) = c := by
        simpa using hc
      rw [← hceq]
      have hb := pymax_bounds probs hp
      have h0 := url_confidence_nonneg f
      have h1 := url_confidence_le_one f
      unfold calculate_final_confidence
      rw [extract_url_features_score]
      constructor <;> linarith [hb.1, hb.2]
  · intro ml vt
    unfold calculate_combined_threat_level
    exact threat_levels_getD_mem _
      (max_lt (levelIndex_lt_five _) (levelIndex_lt_five _))

/-- Claim C1 (witness): instantiation on a successful fetch with label 0 and
a concrete probability vector. -/
theorem classify_url_verdict_range_witness :
    (classify_url default_url_features [AttemptOutcome.response 200 "x"]
        (0, [1 / 2, 1 / 2])).threat_level
      ∈ (["safe", "low", "medium", "high"] : List String) :=
  (classify_url_verdict_range default_url_features
      [AttemptOutcome.response 200 "x"] 0 [1 / 2, 1 / 2]
      (by norm_num [List.forall_mem_cons])).1

/-- Claim C9 (counterexample): a provider response with zero detections of
every kind (so zero malicious and suspicious detections) is assigned the
threat level "unknown", not the "low" the claim prescribes. -/
theorem vt_zero_total_unknown :
    (parse_url_response 0 0 0 0).threat_level = "unknown"
    ∧ "unknown" ≠ "low" := by
  constructor <;> decide

/-- Claim C9 (amended): when at least one detection is tallied (total > 0)
the per-provider threat level follows the claimed thresholds on the ratio
(malicious + suspicious) / total - ratio > 0.3 high, ratio > 0.1 medium,
zero malicious and suspicious low, otherwise suspicious - while a response
with total = 0 is assigned "unknown". -/
theorem vt_threat_level_thresholds (malCount susCount harmCount undCount : ℕ) :
    (malCount + susCount + harmCount + undCount = 0 →
      (parse_url_response malCount susCount harmCount undCount).threat_level
        = "unknown")
    ∧ (0 < malCount + susCount + harmCount + undCount →
        ((malCount + susCount : ℕ) : ℚ)
            / ((malCount + susCount + harmCount + undCount : ℕ) : ℚ) > 3 / 10 →
        (parse_url_response malCount susCount harmCount undCount).threat_level
          = "high")
    ∧ (0 < malCount + susCount + harmCount + undCount →
        ((malCount + susCount : ℕ) : ℚ)
            / ((malCount + susCount + harmCount + undCount : ℕ) : ℚ) ≤ 3 / 10 →
        ((malCount + susCount : ℕ) : ℚ)
            / ((malCount + susCount + harmCount + undCount : ℕ) : ℚ) > 1 / 10 →
        (parse_url_response malCount susCount harmCount undCount).threat_level
          = "medium")
    ∧ (0 < malCount + susCount + harmCount + undCount →
        malCount = 0 → susCount = 0 →
        (parse_url_response malCount susCount harmCount undCount).threat_level
          = "low")
    ∧ (0 < malCount + susCount + harmCount + undCount →
        ((malCount + susCount : ℕ) : ℚ)
            / ((malCount + susCount + harmCount + undCount : ℕ) : ℚ) ≤ 1 / 10 →
        ¬(malCount = 0 ∧ susCount = 0) →
        (parse_url_response malCount susCount harmCount undCount).threat_level
          = "suspicious") := by
  refine ⟨?_, ?_, ?_, ?_, ?_⟩
  · intro h
    show vt_threat_level malCount susCount harmCount undCount = "unknown"
    unfold vt_threat_level
    rw [if_neg (by omega)]
  · intro ht hr
    show vt_threat_level malCount susCount harmCount undCount = "high"
    unfold vt_threat_level
    rw [if_pos ht, if_pos hr]
  · intro ht h3 h1
    show vt_threat_level malCount susCount harmCount undCount = "medium"
    unfold vt_threat_level
    rw [if_pos ht, if_neg (not_lt.mpr h3), if_pos h1]
  · intro ht hm hs
    subst hm; subst hs
    show vt_threat_level 0 0 harmCount undCount = "low"
    unfold vt_threat_level
    rw [if_pos ht, if_neg (by push_cast; norm_num), if_neg (by push_cast; norm_num),
      if_pos ⟨rfl, rfl⟩]
  · intro ht h1 hne
    show vt_threat_level malCount susCount harmCount undCount = "suspicious"
    unfold vt_threat_level
    rw [if_pos ht, if_neg (not_lt.mpr (le_trans h1 (by norm_num))),
      if_neg (not_lt.mpr h1), if_neg hne]

/-- Claim C9 (witness): a response with 4 malicious detections out of 10 has
ratio 0.4 > 0.3 and is assigned "high". -/
theorem vt_threat_level_thresholds_witness :
    (parse_url_response 4 0 6 0).threat_level = "high" :=
  (vt_threat_level_thresholds 4 0 6 0).2.1 (by norm_num) (by norm_num)
